import Mathlib

/-
  Verification development for the elmkc chat client: a shallow embedding of
  the message codec (src/protocol.rs) and the connection supervisor
  (src/socket.rs), with theorems settling the specification claims.
-/

namespace ElmKC

/-- JSON values as exchanged on the wire. Numbers are modelled as integers,
which covers every numeric field of the protocol (the usize and isize
fields); no protocol field carries a float, bool or null. -/
inductive Json where
  | str (s : String)
  | num (n : Int)
  | arr (elems : List Json)
  | obj (fields : List (String × Json))
deriving Repr

/-- Field lookup in a JSON object, first match wins (encoded objects have
unique keys; serde struct deserialization reads fields by name, in any
order, ignoring unknown extra fields, which this lookup-based decoding
mirrors). -/
def lookupField : List (String × Json) → String → Option Json
  | [], _ => none
  | (k, v) :: rest, key => if k = key then some v else lookupField rest key

/-- Read a JSON string. -/
def Json.asStr : Json → Option String
  | .str s => some s
  | _ => none

/-- Read a usize field: a non-negative integer (serde rejects negative
numbers for usize). -/
def Json.asNat : Json → Option Nat
  | .num (Int.ofNat n) => some n
  | _ => none

/-- Read an isize field. -/
def Json.asInt : Json → Option Int
  | .num n => some n
  | _ => none

/-- Decode a JSON array of usize values (the Delete frame payload). -/
def decodeNatList : List Json → Option (List Nat)
  | [] => some []
  | j :: rest =>
    match j.asNat, decodeNatList rest with
    | some n, some l => some (n :: l)
    | _, _ => none

/-- UserStatus from src/protocol.rs: the closed enumeration carried by the
Status inbound frame. -/
inductive UserStatus where
  | authenticated
  | banned
  | nameExists
  | nameInvalid
  | nameLength
  | nameTimeout
  | rename
  | setUserConf
  | unauthenticated
deriving DecidableEq, Repr

/-- Wire name of a UserStatus variant: serde rename_all = lowercase. -/
def UserStatus.wireName : UserStatus → String
  | .authenticated => "authenticated"
  | .banned => "banned"
  | .nameExists => "nameexists"
  | .nameInvalid => "nameinvalid"
  | .nameLength => "namelength"
  | .nameTimeout => "nametimeout"
  | .rename => "rename"
  | .setUserConf => "setuserconf"
  | .unauthenticated => "unauthenticated"

/-- Decode a UserStatus from its lowercase wire name. -/
def UserStatus.ofWireName : String → Option UserStatus
  | "authenticated" => some .authenticated
  | "banned" => some .banned
  | "nameexists" => some .nameExists
  | "nameinvalid" => some .nameInvalid
  | "namelength" => some .nameLength
  | "nametimeout" => some .nameTimeout
  | "rename" => some .rename
  | "setuserconf" => some .setUserConf
  | "unauthenticated" => some .unauthenticated
  | _ => none

/-- InboundData from src/protocol.rs: the inbound frame payload, a tagged
union keyed by the lowercase type discriminator with adjacent content in
the data field. Field names and order follow the Rust declaration. -/
inductive InboundData where
  | accepted (message : String)
  | authLevel (value : Nat)
  | chat (auth : Nat) (author : String) (author_color : String)
         (author_id : Nat) (author_level : Nat) (donate_value : String)
         (id : Nat) (message : String) (reply : Nat) (time : Nat)
  | delete (messages : List Nat)
  | getUserConf (color : String) (name : String)
  | join (name : String)
  | part (name : String)
  | servermsg (message : String)
  | status (status : UserStatus)
deriving DecidableEq, Repr

/-- InboundMessage from src/protocol.rs: a struct holding the InboundData
with serde flatten, so its wire form is identical to that of the data. -/
structure InboundMessage where
  data : InboundData
deriving DecidableEq, Repr

/-- MessageAuth from src/protocol.rs: the authentication descriptor, a
tagged union keyed by the auth tag, currently the single google variant. -/
inductive MessageAuth where
  | google (token : String)
deriving DecidableEq, Repr

/-- OutboundData from src/protocol.rs: the outbound frame payload, again
tagged by type with adjacent content in data. -/
inductive OutboundData where
  | hello (last_message : Int)
  | message (reply : Nat) (text : String)
deriving DecidableEq, Repr

/-- OutboundMessage from src/protocol.rs: the flattened pair of the
authentication descriptor and the outbound payload. -/
structure OutboundMessage where
  auth : MessageAuth
  data : OutboundData
deriving DecidableEq, Repr

/-- OutboundMessage::hello from src/protocol.rs: clones the descriptor and
builds a Hello frame with last_message = -1. -/
def OutboundMessage.hello (auth : MessageAuth) : OutboundMessage :=
  { auth := auth, data := .hello (-1) }

/-- OutboundMessage::message from src/protocol.rs: clones the descriptor
and builds a Message frame; a missing reply target becomes 0. -/
def OutboundMessage.message (auth : MessageAuth) (content : String)
    (reply : Option Nat) : OutboundMessage :=
  { auth := auth
    data := .message (match reply with | some id => id | none => 0) content }

/-- The type discriminator serde writes for each InboundData variant
(rename_all = lowercase). -/
def InboundData.typeTag : InboundData → String
  | .accepted _ => "accepted"
  | .authLevel _ => "authlevel"
  | .chat _ _ _ _ _ _ _ _ _ _ => "chat"
  | .delete _ => "delete"
  | .getUserConf _ _ => "getuserconf"
  | .join _ => "join"
  | .part _ => "part"
  | .servermsg _ => "servermsg"
  | .status _ => "status"

/-- The data object serde writes for each InboundData variant, fields in
declaration order. -/
def InboundData.dataFields : InboundData → List (String × Json)
  | .accepted message => [("message", .str message)]
  | .authLevel value => [("value", .num (Int.ofNat value))]
  | .chat auth author author_color author_id author_level donate_value
      id message reply time =>
    [("auth", .num (Int.ofNat auth)), ("author", .str author),
     ("author_color", .str author_color),
     ("author_id", .num (Int.ofNat author_id)),
     ("author_level", .num (Int.ofNat author_level)),
     ("donate_value", .str donate_value), ("id", .num (Int.ofNat id)),
     ("message", .str message), ("reply", .num (Int.ofNat reply)),
     ("time", .num (Int.ofNat time))]
  | .delete messages =>
    [("messages", .arr (messages.map fun n => Json.num (Int.ofNat n)))]
  | .getUserConf color name => [("color", .str color), ("name", .str name)]
  | .join name => [("name", .str name)]
  | .part name => [("name", .str name)]
  | .servermsg message => [("message", .str message)]
  | .status st => [("status", .str st.wireName)]

/-- Serialization of InboundData: the adjacently tagged form serde
produces, a single object with the type tag and the data object. -/
def encodeInboundData (d : InboundData) : Json :=
  .obj [("type", .str d.typeTag), ("data", .obj d.dataFields)]

/-- Serialization of InboundMessage: the flatten attribute makes it the
same object as its data. -/
def encodeInboundMessage (m : InboundMessage) : Json :=
  encodeInboundData m.data

/-- Decode the data object of one variant, given its recognized type tag.
Mirrors the serde derive: fields are read by name; a tag outside the nine
declared variants is a decode failure. -/
def decodeVariant (tag : String) (f : List (String × Json)) :
    Option InboundData :=
  if tag = "accepted" then do
    let message ← (lookupField f "message").bind Json.asStr
    pure (.accepted message)
  else if tag = "authlevel" then do
    let value ← (lookupField f "value").bind Json.asNat
    pure (.authLevel value)
  else if tag = "chat" then do
    let auth ← (lookupField f "auth").bind Json.asNat
    let author ← (lookupField f "author").bind Json.asStr
    let author_color ← (lookupField f "author_color").bind Json.asStr
    let author_id ← (lookupField f "author_id").bind Json.asNat
    let author_level ← (lookupField f "author_level").bind Json.asNat
    let donate_value ← (lookupField f "donate_value").bind Json.asStr
    let id ← (lookupField f "id").bind Json.asNat
    let message ← (lookupField f "message").bind Json.asStr
    let reply ← (lookupField f "reply").bind Json.asNat
    let time ← (lookupField f "time").bind Json.asNat
    pure (.chat auth author author_color author_id author_level
      donate_value id message reply time)
  else if tag = "delete" then do
    let raw ← lookupField f "messages"
    match raw with
    | .arr elems => do
      let messages ← decodeNatList elems
      pure (.delete messages)
    | _ => none
  else if tag = "getuserconf" then do
    let color ← (lookupField f "color").bind Json.asStr
    let name ← (lookupField f "name").bind Json.asStr
    pure (.getUserConf color name)
  else if tag = "join" then do
    let name ← (lookupField f "name").bind Json.asStr
    pure (.join name)
  else if tag = "part" then do
    let name ← (lookupField f "name").bind Json.asStr
    pure (.part name)
  else if tag = "servermsg" then do
    let message ← (lookupField f "message").bind Json.asStr
    pure (.servermsg message)
  else if tag = "status" then do
    let raw ← (lookupField f "status").bind Json.asStr
    let st ← UserStatus.ofWireName raw
    pure (.status st)
  else none

/-- Deserialization of InboundData: the top level must be an object whose
type field is a string naming a declared variant and whose data field is
an object holding the fields of that variant. Anything else is a decode
failure, as with the serde derive. -/
def decodeInboundData (j : Json) : Option InboundData :=
  match j with
  | .obj fields =>
    match lookupField fields "type" with
    | some (.str tag) =>
      match lookupField fields "data" with
      | some (.obj dataFields) => decodeVariant tag dataFields
      | _ => none
    | _ => none
  | _ => none

/-- Deserialization of InboundMessage (serde flatten over InboundData). -/
def decodeInboundMessage (j : Json) : Option InboundMessage :=
  (decodeInboundData j).map InboundMessage.mk

/-- Serialization of the authentication descriptor: the fields it
contributes to the flat outbound object (tag = auth, lowercase). -/
def encodeMessageAuth : MessageAuth → List (String × Json)
  | .google token => [("auth", .str "google"), ("token", .str token)]

/-- The type and data fields serde writes for each OutboundData variant. -/
def encodeOutboundData : OutboundData → List (String × Json)
  | .hello last_message =>
    [("type", .str "hello"),
     ("data", .obj [("last_message", .num last_message)])]
  | .message reply text =>
    [("type", .str "message"),
     ("data", .obj [("reply", .num (Int.ofNat reply)), ("text", .str text)])]

/-- Serialization of OutboundMessage: both the descriptor and the payload
are flattened into one top-level object, descriptor fields first as
declared, never as a nested object. -/
def encodeOutboundMessage (m : OutboundMessage) : Json :=
  .obj (encodeMessageAuth m.auth ++ encodeOutboundData m.data)

/-- The list of type tags the inbound codec recognizes. -/
def recognizedTags : List String :=
  ["accepted", "authlevel", "chat", "delete", "getuserconf", "join",
   "part", "servermsg", "status"]

/-- The arms of the Received match in the update function of src/main.rs:
the consumer acts on Chat, Delete, GetUserConf, Join, Part and ServerMsg;
every other variant falls through to the catch-all arm, which changes no
state and issues no command. -/
def handledByConsumer : InboundData → Bool
  | .chat _ _ _ _ _ _ _ _ _ _ => true
  | .delete _ => true
  | .getUserConf _ _ => true
  | .join _ => true
  | .part _ => true
  | .servermsg _ => true
  | _ => false

/-- The bounded outbound queue from src/socket.rs, an mpsc channel created
with capacity 100 on each successful handshake. The receiverDropped flag
records whether the supervisor has dropped the receiving half (which it
does whenever it leaves the Connected state); buf is the FIFO buffer
of pending frames. -/
structure Channel where
  receiverDropped : Bool
  buf : List OutboundMessage
deriving DecidableEq, Repr

/-- Capacity passed to mpsc::channel in src/socket.rs. -/
def channelCapacity : Nat := 100

/-- The two failure modes of mpsc try_send: the buffer is full, or the
receiving half has been dropped. -/
inductive TrySendError where
  | full
  | disconnected
deriving DecidableEq, Repr

/-- Semantics of try_send on the outbound channel: fails with disconnected once the
receiver is dropped, fails with full at capacity, otherwise appends the
frame at the tail of the FIFO buffer. -/
def Channel.trySend (c : Channel) (m : OutboundMessage) :
    Except TrySendError Channel :=
  if c.receiverDropped then .error .disconnected
  else if channelCapacity ≤ c.buf.length then .error .full
  else .ok { c with buf := c.buf ++ [m] }

/-- Outcome of Connection::send as seen by the caller: either the channel
with the frame enqueued, or a process panic. -/
inductive SendOutcome where
  | ok (c : Channel)
  | panic
deriving DecidableEq, Repr

/-- Connection::send from src/socket.rs: try_send followed by unwrap, so
any try_send error is a process panic. -/
def Connection.send (c : Channel) (m : OutboundMessage) : SendOutcome :=
  match c.trySend m with
  | .ok c2 => .ok c2
  | .error _ => .panic

/-- Event from src/socket.rs: what the subscription publishes to the
application. The Connected payload (the submission handle) is tracked in
the system state rather than inside the event. -/
inductive Event where
  | connected
  | disconnected
  | received (m : InboundMessage)
deriving DecidableEq, Repr

/-- State from src/socket.rs: the connection state machine. The live
socket is an abstract handle identifier; the outbound queue is the
Channel. Both states carry the authentication descriptor and the server
target string. -/
inductive ConnState where
  | connected (auth : MessageAuth) (server : String) (sock : Nat)
      (input : Channel)
  | disconnected (auth : MessageAuth) (server : String)
deriving DecidableEq, Repr

/-- Authentication descriptor carried by a connection state. -/
def ConnState.auth : ConnState → MessageAuth
  | .connected a _ _ _ => a
  | .disconnected a _ => a

/-- Server target string carried by a connection state. -/
def ConnState.server : ConnState → String
  | .connected _ s _ _ => s
  | .disconnected _ s => s

/-- What the socket read half yields when its branch of the select wins:
a text frame (modelled at the JSON value level), a non-text message
(binary, ping, pong, ...), or a socket-level error. -/
inductive SockRead where
  | text (j : Json)
  | nonText
  | sockErr

/-- The external readiness event that drives one step of the supervisor:
in the Connected state either the socket read half or the outbound queue
wins the select (for the outbound branch, writeOk tells whether the
socket write succeeds); in the Disconnected state the handshake attempt
resolves, on success yielding a fresh socket handle. -/
inductive Trigger where
  | inbound (r : SockRead)
  | outbound (writeOk : Bool)
  | handshake (sock : Option Nat)

/-- Result of one supervisor step: the event published to the application
(if any), the successor state, the delay in seconds taken before the step
completes (1 only on the handshake-failure branch), and the frame
successfully written to the socket during the step (if any) - or a
process panic. -/
inductive StepOut where
  | next (ev : Option Event) (st : ConnState) (delaySecs : Nat)
      (sent : Option OutboundMessage)
  | panic

/-- The body of the subscription unfold closure in src/socket.rs, one
step of the supervisor driven by the trigger that became ready. In the
Connected state: a decoded text frame is republished as Received (a
decode failure is an unwrap panic); non-text messages are dropped; a read
error or a failed write emits Disconnected and drops socket and receiver;
a dequeued frame is written to the socket. In the Disconnected state: a
successful handshake creates a fresh capacity-100 channel already holding
the single Hello frame and emits Connected; a failed handshake sleeps one
second and emits Disconnected. Triggers that cannot occur in a state
(an outbound trigger with an empty queue, a handshake trigger while
connected, a socket trigger while disconnected) leave the state unchanged
and emit nothing. -/
def superviseStep : ConnState → Trigger → StepOut
  | .connected auth server sock input, .inbound (.text j) =>
    match decodeInboundMessage j with
    | some m => .next (some (.received m)) (.connected auth server sock input) 0 none
    | none => .panic
  | .connected auth server sock input, .inbound .nonText =>
    .next none (.connected auth server sock input) 0 none
  | .connected auth server _ _, .inbound .sockErr =>
    .next (some .disconnected) (.disconnected auth server) 0 none
  | .connected auth server sock input, .outbound writeOk =>
    match input.buf with
    | [] => .next none (.connected auth server sock input) 0 none
    | m :: rest =>
      if writeOk then
        .next none (.connected auth server sock { input with buf := rest }) 0 (some m)
      else
        .next (some .disconnected) (.disconnected auth server) 0 none
  | .connected auth server sock input, .handshake _ =>
    .next none (.connected auth server sock input) 0 none
  | .disconnected auth server, .handshake (some sock) =>
    .next (some .connected)
      (.connected auth server sock
        { receiverDropped := false, buf := [OutboundMessage.hello auth] })
      0 none
  | .disconnected auth server, .handshake none =>
    .next (some .disconnected) (.disconnected auth server) 1 none
  | .disconnected auth server, .inbound _ =>
    .next none (.disconnected auth server) 0 none
  | .disconnected auth server, .outbound _ =>
    .next none (.disconnected auth server) 0 none

/-- Successor state of a supervisor step on a handshake failure (the only
trigger a disconnected supervisor reacts to); used to express indefinite
retry. -/
def failStep (st : ConnState) : ConnState :=
  match superviseStep st (.handshake none) with
  | .next _ st2 _ _ => st2
  | .panic => st

/-- One established connection together with the frames written to its
socket so far, in write order. -/
structure Sys where
  st : ConnState
  written : List OutboundMessage
deriving Repr

/-- An action on a live connection: the application submits a frame
through its Connection handle, or the supervisor services one ready
trigger. -/
inductive Act where
  | submit (m : OutboundMessage)
  | drive (t : Trigger)

/-- One system step over a single connection; none is a process panic.
A submit while connected is Connection::send on the live channel; a
submit after the supervisor has left the Connected state goes through a
stale handle whose receiver was dropped, hence try_send fails and the
unwrap panics. A drive while disconnected is a no-op here because this
trace tracks a single connection (a reconnect would start a fresh one). -/
def sysStep (s : Sys) (a : Act) : Option Sys :=
  match a with
  | .submit m =>
    match s.st with
    | .connected auth server sock input =>
      match Connection.send input m with
      | .ok c2 => some ⟨.connected auth server sock c2, s.written⟩
      | .panic => none
    | .disconnected _ _ =>
      match Connection.send { receiverDropped := true, buf := [] } m with
      | .ok _ => some ⟨s.st, s.written⟩
      | .panic => none
  | .drive t =>
    match s.st with
    | .connected _ _ _ _ =>
      match superviseStep s.st t with
      | .next _ st2 _ sent => some ⟨st2, s.written ++ sent.toList⟩
      | .panic => none
    | .disconnected _ _ => some s

/-- Run a list of actions from a system state, stopping at a panic. -/
def runSys (s : Sys) : List Act → Option Sys
  | [] => some s
  | a :: rest =>
    match sysStep s a with
    | some s2 => runSys s2 rest
    | none => none

/-- Successor state of a step result, with a default for the panic
outcome (which has no successor state). -/
def StepOut.stOr (r : StepOut) (dflt : ConnState) : ConnState :=
  match r with
  | .next _ st _ _ => st
  | .panic => dflt

/-- While connected, the head of the outbound FIFO is still the Hello
frame of the given descriptor; trivial once disconnected. -/
def queueHeadOk (auth : MessageAuth) : ConnState → Prop
  | .connected _ _ _ input =>
    input.buf.head? = some (OutboundMessage.hello auth)
  | .disconnected _ _ => True

/-- Invariant for the handshake-ordering argument: either nothing has
been written to the socket yet and the Hello frame is still at the head
of the queue, or the first frame ever written was the Hello frame. -/
def helloInv (auth : MessageAuth) (s : Sys) : Prop :=
  (s.written = [] ∧ queueHeadOk auth s.st) ∨
    s.written.head? = some (OutboundMessage.hello auth)

end ElmKC

namespace ElmKC

/-- Helper: decoding a JSON array that encodes a list of usize values
recovers the list. -/
theorem decodeNatList_encode (l : List Nat) :
    decodeNatList (l.map fun n => Json.num (Int.ofNat n)) = some l := by
  induction l with
  | nil => rfl
  | cons n rest ih => simp only [List.map_cons, decodeNatList, Json.asNat, ih]

/-- Helper: the lowercase wire name of a user status decodes back to it. -/
theorem ofWireName_wireName (st : UserStatus) :
    UserStatus.ofWireName st.wireName = some st := by
  cases st <;> rfl

/-- Claim C8: decoding is a left inverse of encoding on inbound frames:
for every InboundMessage value, the JSON object serde writes for it
decodes back to the same value field-for-field. -/
theorem decode_encode_inbound (m : InboundMessage) :
    decodeInboundMessage (encodeInboundMessage m) = some m := by
  obtain ⟨d⟩ := m
  cases d with
  | delete l =>
    show Option.map InboundMessage.mk
        ((decodeNatList (l.map fun n => Json.num (Int.ofNat n))).bind
          (fun messages => some (InboundData.delete messages))) = _
    rw [decodeNatList_encode]
    rfl
  | status st => cases st <;> rfl
  | _ => rfl

/-- Claim C4: encoding the Message frame with reply 0 and text hi under
the google descriptor with token T yields one flat JSON object whose
top-level fields are the auth tag, the token, the type tag and the data
payload; the authentication fields sit beside the frame fields, not
inside a nested auth object. -/
theorem encode_outbound_flattens :
    encodeOutboundMessage ⟨.google "T", .message 0 "hi"⟩ =
      .obj [("auth", .str "google"), ("token", .str "T"),
            ("type", .str "message"),
            ("data", .obj [("reply", .num 0), ("text", .str "hi")])] ∧
    lookupField [("auth", Json.str "google"), ("token", Json.str "T"),
        ("type", Json.str "message"),
        ("data", Json.obj [("reply", Json.num 0), ("text", Json.str "hi")])]
        "auth" = some (.str "google") ∧
    lookupField [("auth", Json.str "google"), ("token", Json.str "T"),
        ("type", Json.str "message"),
        ("data", Json.obj [("reply", Json.num 0), ("text", Json.str "hi")])]
        "token" = some (.str "T") :=
  ⟨rfl, rfl, rfl⟩

/-- Claim C9: in the Connected state a successfully received non-text
WebSocket message produces no event and leaves the state unchanged, with
the same socket handle and the same outbound queue. -/
theorem nontext_message_ignored (auth : MessageAuth) (server : String)
    (sock : Nat) (input : Channel) :
    superviseStep (.connected auth server sock input) (.inbound .nonText) =
      .next none (.connected auth server sock input) 0 none := rfl

/-- Claim C2: in the Connected state, an inbound text frame whose content
fails to decode as an inbound frame makes the supervisor step panic: the
decode failure branch is an unwrap, fatal to the process. -/
theorem malformed_inbound_panics (auth : MessageAuth) (server : String)
    (sock : Nat) (input : Channel) (j : Json)
    (h : decodeInboundMessage j = none) :
    superviseStep (.connected auth server sock input) (.inbound (.text j)) =
      .panic := by
  simp only [superviseStep]
  rw [h]

/-- Witness for claim C2 at a concrete malformed frame. -/
theorem malformed_inbound_panics_witness :
    decodeInboundMessage
        (.obj [("type", .str "bogus"), ("data", .obj [])]) = none ∧
    superviseStep
        (.connected (.google "T") "server.mattkc.com" 0 ⟨false, []⟩)
        (.inbound (.text (.obj [("type", .str "bogus"), ("data", .obj [])]))) =
      .panic :=
  ⟨rfl,
   malformed_inbound_panics (.google "T") "server.mattkc.com" 0 ⟨false, []⟩
     (.obj [("type", .str "bogus"), ("data", .obj [])]) rfl⟩

end ElmKC

namespace ElmKC

/-- Claim C10: every supervisor transition preserves the authentication
descriptor and the server target string carried in the state. -/
theorem step_preserves_auth_server (st : ConnState) (t : Trigger) :
    ((superviseStep st t).stOr st).auth = st.auth ∧
    ((superviseStep st t).stOr st).server = st.server := by
  cases st with
  | connected auth server sock input =>
    cases t with
    | inbound r =>
      cases r with
      | text j =>
        cases hd : decodeInboundMessage j <;>
          simp [superviseStep, hd, StepOut.stOr, ConnState.auth,
            ConnState.server]
      | nonText => exact ⟨rfl, rfl⟩
      | sockErr => exact ⟨rfl, rfl⟩
    | outbound writeOk =>
      obtain ⟨rd, buf⟩ := input
      cases buf with
      | nil => exact ⟨rfl, rfl⟩
      | cons m rest => cases writeOk <;> exact ⟨rfl, rfl⟩
    | handshake so => exact ⟨rfl, rfl⟩
  | disconnected auth server =>
    cases t with
    | inbound r => exact ⟨rfl, rfl⟩
    | outbound b => exact ⟨rfl, rfl⟩
    | handshake so => cases so <;> exact ⟨rfl, rfl⟩

/-- Claim C6: a top-level object whose type tag is not one of the nine
recognized variants is a decode failure; the codec never maps an
unrecognized tag to a frame. -/
theorem unrecognized_tag_not_decoded (fields : List (String × Json))
    (tag : String) (h1 : lookupField fields "type" = some (.str tag))
    (h2 : tag ∉ recognizedTags) :
    decodeInboundData (.obj fields) = none := by
  simp only [recognizedTags, List.mem_cons, List.not_mem_nil, or_false,
    not_or] at h2
  obtain ⟨n1, n2, n3, n4, n5, n6, n7, n8, n9⟩ := h2
  simp only [decodeInboundData, h1]
  cases hd : lookupField fields "data" with
  | none => rfl
  | some v =>
    cases v with
    | obj df =>
      simp only [hd]
      simp [decodeVariant, n1, n2, n3, n4, n5, n6, n7, n8, n9]
    | str s => rfl
    | num n => rfl
    | arr es => rfl

/-- Witness for claim C6 at a concrete unrecognized tag. -/
theorem unrecognized_tag_not_decoded_witness :
    lookupField [("type", Json.str "bogus"), ("data", Json.obj [])] "type" =
      some (.str "bogus") ∧
    "bogus" ∉ recognizedTags ∧
    decodeInboundData (.obj [("type", .str "bogus"), ("data", .obj [])]) =
      none :=
  ⟨rfl, by decide,
   unrecognized_tag_not_decoded [("type", .str "bogus"), ("data", .obj [])]
     "bogus" rfl (by decide)⟩

/-- Claim C7: each failure (handshake failure, socket read error, socket
write error) emits exactly one Disconnected event and moves to the
Disconnected state; the handshake-failure branch alone sleeps one second;
the failure step is a fixed point, so arbitrarily many retries follow
with no backoff and no retry bound, and a later handshake attempt still
connects exactly as the first would. -/
theorem reconnect_policy :
    (∀ auth server,
      superviseStep (.disconnected auth server) (.handshake none) =
        .next (some .disconnected) (.disconnected auth server) 1 none) ∧
    (∀ auth server sock input,
      superviseStep (.connected auth server sock input) (.inbound .sockErr) =
        .next (some .disconnected) (.disconnected auth server) 0 none) ∧
    (∀ auth server sock input (m : OutboundMessage) rest,
      input.buf = m :: rest →
      superviseStep (.connected auth server sock input) (.outbound false) =
        .next (some .disconnected) (.disconnected auth server) 0 none) ∧
    (∀ auth server n,
      failStep^[n] (.disconnected auth server) = .disconnected auth server) ∧
    (∀ auth server sock,
      superviseStep (.disconnected auth server) (.handshake (some sock)) =
        .next (some .connected)
          (.connected auth server sock
            { receiverDropped := false, buf := [OutboundMessage.hello auth] })
          0 none) := by
  refine ⟨fun _ _ => rfl, fun _ _ _ _ => rfl, ?_, ?_, fun _ _ _ => rfl⟩
  · intro auth server sock input m rest h
    simp only [superviseStep]
    rw [h]
    rfl
  · intro auth server n
    exact Function.iterate_fixed rfl n

/-- Witness for claim C7 at concrete states. -/
theorem reconnect_policy_witness :
    superviseStep
        (.connected (.google "t") "s" 0
          ⟨false, [OutboundMessage.hello (.google "t")]⟩)
        (.outbound false) =
      .next (some .disconnected) (.disconnected (.google "t") "s") 0 none ∧
    failStep^[3] (.disconnected (.google "t") "s") =
      .disconnected (.google "t") "s" :=
  ⟨reconnect_policy.2.2.1 (.google "t") "s" 0
     ⟨false, [OutboundMessage.hello (.google "t")]⟩
     (OutboundMessage.hello (.google "t")) [] rfl,
   reconnect_policy.2.2.2.1 (.google "t") "s" 3⟩

/-- Claim C5 counterexample: a JSON text with the unknown discriminator
youtube does not decode successfully, so an unknown type tag is not an
ignorable frame but a decode failure. -/
theorem unknown_discriminator_not_ignorable :
    decodeInboundMessage
        (.obj [("type", .str "youtube"), ("data", .obj [])]) = none ∧
    "youtube" ∉ recognizedTags :=
  ⟨rfl, by decide⟩

/-- Claim C5 as amended: every variant the schema declares but the
consumer does not act upon (Accepted, AuthLevel, Status) decodes
successfully from its wire form and falls through the catch-all arm of
the consumer, which ignores it; only tags unknown to the schema fail. -/
theorem unhandled_variants_decode_and_ignored :
    (∀ msg : String,
      decodeInboundMessage (encodeInboundMessage ⟨.accepted msg⟩) =
        some ⟨.accepted msg⟩ ∧
      handledByConsumer (.accepted msg) = false) ∧
    (∀ v : Nat,
      decodeInboundMessage (encodeInboundMessage ⟨.authLevel v⟩) =
        some ⟨.authLevel v⟩ ∧
      handledByConsumer (.authLevel v) = false) ∧
    (∀ st : UserStatus,
      decodeInboundMessage (encodeInboundMessage ⟨.status st⟩) =
        some ⟨.status st⟩ ∧
      handledByConsumer (.status st) = false) :=
  ⟨fun _ => ⟨rfl, rfl⟩, fun _ => ⟨rfl, rfl⟩,
   fun st => ⟨by cases st <;> rfl, rfl⟩⟩

/-- Claim C1 counterexample: with the connection in the Disconnected
state the submission handle points at a channel whose receiver was
dropped; Connection.send then unwraps the try_send error and panics, so
the frame is neither rejected gracefully nor silently dropped and the
process crashes. -/
theorem send_after_disconnect_crashes :
    Connection.send { receiverDropped := true, buf := [] }
        (OutboundMessage.message (.google "T") "hi" none) = .panic ∧
    sysStep ⟨.disconnected (.google "T") "server.mattkc.com", []⟩
        (.submit (OutboundMessage.message (.google "T") "hi" none)) = none :=
  ⟨rfl, rfl⟩

/-- Claim C1 as amended: every send through a handle whose receiver side
has been dropped (as happens whenever the supervisor leaves the
Connected state) panics the process. -/
theorem send_stale_handle_panics (c : Channel) (m : OutboundMessage)
    (h : c.receiverDropped = true) : Connection.send c m = .panic := by
  simp [Connection.send, Channel.trySend, h]

/-- Witness for the amended claim C1 at a concrete stale channel. -/
theorem send_stale_handle_panics_witness :
    Channel.receiverDropped ⟨true, []⟩ = true ∧
    Connection.send ⟨true, []⟩ (OutboundMessage.hello (.google "tok")) =
      .panic :=
  ⟨rfl,
   send_stale_handle_panics ⟨true, []⟩ (OutboundMessage.hello (.google "tok"))
     rfl⟩

end ElmKC

namespace ElmKC

/-- Helper: one system step preserves the hello-ordering invariant. -/
theorem sysStep_helloInv {auth : MessageAuth} {s s2 : Sys} {a : Act}
    (hI : helloInv auth s) (h : sysStep s a = some s2) : helloInv auth s2 := by
  obtain ⟨st, written⟩ := s
  cases a with
  | submit m =>
    cases st with
    | disconnected a2 sv =>
      simp [sysStep, Connection.send, Channel.trySend] at h
    | connected a2 sv so inp =>
      by_cases h1 : inp.receiverDropped
      · simp [sysStep, Connection.send, Channel.trySend, h1] at h
      · by_cases h2 : channelCapacity ≤ inp.buf.length
        · simp [sysStep, Connection.send, Channel.trySend, h1, h2] at h
        · simp [sysStep, Connection.send, Channel.trySend, h1, h2] at h
          subst h
          rcases hI with ⟨hw, hq⟩ | hh
          · left
            refine ⟨hw, ?_⟩
            simp only [queueHeadOk] at hq ⊢
            cases hb : inp.buf with
            | nil => rw [hb] at hq; cases hq
            | cons x xs => rw [hb] at hq; simpa using hq
          · right
            exact hh
  | drive t =>
    cases st with
    | disconnected a2 sv =>
      simp [sysStep] at h
      rw [← h]
      exact hI
    | connected a2 sv so inp =>
      cases t with
      | inbound r =>
        cases r with
        | text j =>
          cases hd : decodeInboundMessage j with
          | some msg =>
            simp [sysStep, superviseStep, hd] at h
            rw [← h]
            exact hI
          | none => simp [sysStep, superviseStep, hd] at h
        | nonText =>
          simp [sysStep, superviseStep] at h
          rw [← h]
          exact hI
        | sockErr =>
          simp [sysStep, superviseStep] at h
          subst h
          rcases hI with ⟨hw, _⟩ | hh
          · exact Or.inl ⟨hw, trivial⟩
          · exact Or.inr hh
      | outbound writeOk =>
        cases hb : inp.buf with
        | nil =>
          simp [sysStep, superviseStep, hb] at h
          rw [← h]
          exact hI
        | cons m rest =>
          cases writeOk with
          | true =>
            simp [sysStep, superviseStep, hb] at h
            subst h
            rcases hI with ⟨hw, hq⟩ | hh
            · right
              simp only [queueHeadOk, hb] at hq
              subst hw
              simpa using hq
            · right
              cases hwr : written with
              | nil => rw [hwr] at hh; cases hh
              | cons w ws => rw [hwr] at hh; simpa using hh
          | false =>
            simp [sysStep, superviseStep, hb] at h
            subst h
            rcases hI with ⟨hw, _⟩ | hh
            · exact Or.inl ⟨by simpa using hw, trivial⟩
            · exact Or.inr (by simpa using hh)
      | handshake so =>
        simp [sysStep, superviseStep] at h
        rw [← h]
        exact hI

/-- Helper: running any action list preserves the invariant. -/
theorem runSys_helloInv {auth : MessageAuth} :
    ∀ (acts : List Act) {s s2 : Sys}, helloInv auth s →
      runSys s acts = some s2 → helloInv auth s2 := by
  intro acts
  induction acts with
  | nil =>
    intro s s2 hI h
    simp [runSys] at h
    rw [← h]
    exact hI
  | cons a rest ih =>
    intro s s2 hI h
    simp only [runSys] at h
    cases hs : sysStep s a with
    | none => rw [hs] at h; simp at h
    | some s3 =>
      rw [hs] at h
      exact ih (sysStep_helloInv hI hs) h

/-- Claim C3: a successful handshake from the Disconnected state emits
Connected and creates the fresh outbound queue holding exactly the
single Hello frame with last_message -1; on every subsequent run of that
connection, whatever the interleaving of application submissions and
supervisor steps, the first frame written to the socket is that Hello
frame, before any application-submitted frame. -/
theorem hello_first_frame (auth : MessageAuth) (server : String) (sock : Nat) :
    superviseStep (.disconnected auth server) (.handshake (some sock)) =
      .next (some .connected)
        (.connected auth server sock
          { receiverDropped := false, buf := [OutboundMessage.hello auth] })
        0 none ∧
    ∀ (acts : List Act) (s : Sys),
      runSys
          ⟨.connected auth server sock
            { receiverDropped := false,
              buf := [OutboundMessage.hello auth] }, []⟩ acts = some s →
      ∀ m, s.written.head? = some m → m = OutboundMessage.hello auth := by
  refine ⟨rfl, ?_⟩
  intro acts s hrun m hm
  have hI : helloInv auth
      ⟨.connected auth server sock
        { receiverDropped := false, buf := [OutboundMessage.hello auth] },
       []⟩ := Or.inl ⟨rfl, rfl⟩
  rcases runSys_helloInv acts hI hrun with ⟨hw, _⟩ | hh
  · rw [hw] at hm; cases hm
  · rw [hm] at hh
    exact Option.some.inj hh

/-- Witness for claim C3: one drive of the outbound branch writes the
Hello frame first. -/
theorem hello_first_frame_witness :
    runSys
        ⟨.connected (.google "T") "server.mattkc.com" 7
          { receiverDropped := false,
            buf := [OutboundMessage.hello (.google "T")] }, []⟩
        [.drive (.outbound true)] =
      some
        ⟨.connected (.google "T") "server.mattkc.com" 7
          { receiverDropped := false, buf := [] },
         [OutboundMessage.hello (.google "T")]⟩ ∧
    OutboundMessage.hello (.google "T") = OutboundMessage.hello (.google "T") :=
  ⟨rfl,
   (hello_first_frame (.google "T") "server.mattkc.com" 7).2
     [.drive (.outbound true)]
     ⟨.connected (.google "T") "server.mattkc.com" 7
       { receiverDropped := false, buf := [] },
      [OutboundMessage.hello (.google "T")]⟩
     rfl (OutboundMessage.hello (.google "T")) rfl⟩

end ElmKC
